import Mathlib

/-!
Verification of the `AiImageBuilder` build pipeline of
`superai/meta_ai/image_builder.py` (superai-sdk).

The Python code is shallowly embedded: pure helpers (`_get_base_name`,
`full_image_name`, `_prepare_k8s_parameters`, `get_deployment_properties`)
become Lean functions; the stateful build driver (`build_image_s2i`,
`_track_changes`, `build_image`) becomes explicit state passing over a
`World` record plus an event trace recording every I/O action (cache file
reads/writes, docker-client creation, local image lookups, registry pulls,
environment-file edits, s2i build-tool invocations, file writes), in the
order the Python code performs them.  SHA-256 content hashing is modelled
by giving the world a total map `curHash` from tracked file name to the
hash of its current bytes (the claims under study quantify over hashes,
matching the spec's collision-resistance assumption).
-/

/-- The `Orchestrator` enum of the source (all eight members). -/
inductive Orchestrator
  | LOCAL_DOCKER
  | LOCAL_DOCKER_LAMBDA
  | LOCAL_DOCKER_K8S
  | MINIKUBE
  | AWS_SAGEMAKER
  | AWS_SAGEMAKER_ASYNC
  | AWS_LAMBDA
  | AWS_EKS
deriving DecidableEq, Repr

/-- The `k8s_mode` flag as computed at the top of `build_image_s2i`:
`self.orchestrator in [Orchestrator.AWS_EKS, Orchestrator.LOCAL_DOCKER_K8S]`. -/
def k8sMode (o : Orchestrator) : Bool :=
  o = Orchestrator.AWS_EKS ∨ o = Orchestrator.LOCAL_DOCKER_K8S

/-- The `lambda_mode` flag as computed at the top of `build_image_s2i`:
`self.orchestrator in [Orchestrator.LOCAL_DOCKER_LAMBDA, Orchestrator.AWS_LAMBDA]`. -/
def lambdaMode (o : Orchestrator) : Bool :=
  o = Orchestrator.LOCAL_DOCKER_LAMBDA ∨ o = Orchestrator.AWS_LAMBDA

/-- Association-list lookup, the model of Python `dict.get` for the
string-keyed hash record (`hash_content.get(file)`). -/
def hashLookup : List (String × String) → String → Option String
  | [], _ => none
  | (k, v) :: rest, key => if k = key then some v else hashLookup rest key

/-- Association-list update, the model of Python `dict[k] = v`: replaces the
value at an existing key in place, appends a fresh key at the end. -/
def hashInsert : List (String × String) → String → String → List (String × String)
  | [], k, v => [(k, v)]
  | (k0, v0) :: rest, k, v =>
    if k0 = k then (k, v) :: rest else (k0, v0) :: hashInsert rest k v

/-- The persisted per-model-version cache: the `.hash.json` file→hash map and
the `.orchestrator.txt` record (absent on the very first build). -/
structure CacheRecord where
  hashes : List (String × String)
  orch : Option Orchestrator
deriving DecidableEq, Repr

/-- The per-file loop of `_track_changes`: for each tracked file, compare its
current content hash against the stored one (`file_hash != hash_content.get(file)`
marks a change, a missing entry included), then write the new hash into the
record (`new_hash[file] = file_hash`; `new_hash` aliases `hash_content`, so
later comparisons see earlier updates, exactly as in the source). -/
def trackFold : List String → (String → String) → List (String × String) → Bool →
    Bool × List (String × String)
  | [], _, m, c => (c, m)
  | f :: fs, h, m, c =>
    let fh := h f
    let c1 := if hashLookup m f = some fh then c else true
    trackFold fs h (hashInsert m f fh) c1

/-- The tracked-file list of `_track_changes`: `requirements.txt` iff
requirements were declared, `environment.yml` iff a conda environment was
declared, `setup.sh` iff the artifact map declares a `"run"` entry. -/
def trackedFiles (requirements conda_env artifacts_present artifacts_has_run : Bool) :
    List String :=
  (if requirements then ["requirements.txt"] else []) ++
  (if conda_env then ["environment.yml"] else []) ++
  (if artifacts_present && artifacts_has_run then ["setup.sh"] else [])

/-- The method `AiImageBuilder._track_changes` as a state transition on the persisted
cache record: hashes every tracked file and compares with the stored record,
compares the current orchestrator with the stored one (a first build stores
`none`, which always differs), and unconditionally persists the updated
record.  Returns `(changes_in_build, new record)`. -/
def track_changes (files : List String) (h : String → String) (orch : Orchestrator)
    (cache : CacheRecord) : Bool × CacheRecord :=
  let r := trackFold files h cache.hashes false
  let changed := if cache.orch = some orch then r.1 else true
  (changed, ⟨r.2, some orch⟩)

/-- The method `AiImageBuilder._get_base_name`: the pure base-image resolver.
`current_env` stands for the ambient `settings.current_env`. -/
def get_base_name (enable_eia lambda_mode enable_cuda cuda_devel k8s_mode : Bool)
    (version : Nat) (use_internal : Bool) (current_env : String) :
    Except String String :=
  if enable_eia && (lambda_mode || enable_cuda || k8s_mode) then
    .error "Cannot use EIA with other options"
  else if enable_cuda && lambda_mode then
    .error "Cannot use CUDA with Lambda"
  else
    let base0 := "superai-model-s2i-python3711"
    let base1 :=
      if cuda_devel then base0 ++ "-gpu-devel"
      else if enable_cuda then base0 ++ "-gpu"
      else if enable_eia then base0 ++ "-eia"
      else base0 ++ "-cpu"
    let base2 := if current_env = "dev" || use_internal then base1 ++ "-internal" else base1
    let base3 :=
      if lambda_mode then base2 ++ "-lambda"
      else if k8s_mode then base2 ++ "-seldon"
      else base2
    .ok (base3 ++ ":" ++ toString version)

/-- The method `AiImageBuilder.full_image_name`: `f"{image_name}:{version_tag}"`. -/
def full_image_name (image_name version_tag : String) : String :=
  image_name ++ ":" ++ version_tag

/-- Python values appearing in the deployment-properties dictionaries:
numbers (ints and floats, represented exactly as rationals), strings,
booleans and `None`. -/
inductive PVal
  | vNum (q : ℚ)
  | vStr (s : String)
  | vBool (b : Bool)
  | vNone
deriving DecidableEq, Repr

/-- Python truthiness on `PVal`, as used by the `or` fallbacks of
`_prepare_k8s_parameters`: `0`, `0.0`, `""`, `False` and `None` are falsy. -/
def truthy : PVal → Bool
  | .vNum q => q ≠ 0
  | .vStr s => s ≠ ""
  | .vBool b => b
  | .vNone => false

/-- A string-keyed Python dictionary of `PVal`s (insertion-ordered). -/
def KDict := List (String × PVal)
deriving DecidableEq, Repr

/-- Python `dict.get(k)` on a `KDict`. -/
def dictGet : KDict → String → Option PVal
  | [], _ => none
  | (k, v) :: rest, key => if k = key then some v else dictGet rest key

/-- Python `dict[k] = v` on a `KDict`: replace in place or append. -/
def dictSet : KDict → String → PVal → KDict
  | [], k, v => [(k, v)]
  | (k0, v0) :: rest, k, v =>
    if k0 = k then (k, v) :: rest else (k0, v0) :: dictSet rest k v

/-- Python `kubernetes_config.get(key) or default`: the supplied value wins only
when the key is present and its value is truthy. -/
def getOr (d : KDict) (key : String) (dflt : PVal) : PVal :=
  match dictGet d key with
  | some v => if truthy v then v else dflt
  | none => dflt

/-- The caller-facing `properties` dictionary.  Its only nested entry in the
source is the `"kubernetes_config"` sub-dictionary, modelled as a separate
optional field (`none` = key absent); all other entries are flat. -/
structure Props where
  entries : KDict
  kubernetes_config : Option KDict
deriving DecidableEq, Repr

/-- Python `properties or-else-empty` semantics (a missing or empty
dictionary becomes the empty one, which the `Props` record represents
identically). -/
def propsOrEmpty : Option Props → Props
  | some p => p
  | none => ⟨[], none⟩

/-- The observable I/O actions of the build pipeline, in the order the
source performs them: the scoped `os.chdir`, cache-file reads/writes of
`_track_changes`, docker-client creation, local image lookups
(`client.images.get`), registry pulls (`_download_base_image`, recorded
under the unqualified base name; registry qualification is the
collaborator's concern), environment-file edits, s2i build-tool
invocations (source and target image), entrypoint-file writes, and the
Kubernetes-manifest write with its content.  File writes land in the
builder's `location` (the build context directory), so events carry the
file name relative to it. -/
inductive Event
  | evChdir (dir : String)
  | cacheReadE (file : String)
  | cacheWriteE (file : String)
  | dockerClientE
  | imageGetE (img : String)
  | registryPullE (img : String)
  | envDeleteE (key : String)
  | envAddE (entry : String)
  | s2iBuildE (src tgt : String)
  | writeFileE (file : String)
  | configWriteE (file : String) (content : KDict)
deriving DecidableEq, Repr

/-- The method `AiImageBuilder._prepare_k8s_parameters` with every default parameter
explicit: reads each override out of `properties["kubernetes_config"]`
under the source's read-key (`maxReplicas`, `minReplicas`, `cooldownPeriod`,
`targetAverageUtilization`, `gpuTargetAverageUtilization`,
`targetMemoryRequirement`, `targetMemoryLimit`, `volumeMountName`,
`mountPath`, `worker_count`), falls back to the default when absent or
falsy (Python `or`), then `update`s the caller's sub-dictionary with the
eleven computed entries and writes the result to `<name>_config.json`.
Returns the manifest together with the file-write event. -/
def prepare_k8s_parameters (name : String)
    (maxReplicas minReplicas cooldownPeriod targetAverageUtilization
      gpuTargetAverageUtilization targetMemoryRequirement targetMemoryLimit
      volumeMountName mountPath worker_count enable_cuda : PVal)
    (properties : Option Props) : KDict × List Event :=
  let props := propsOrEmpty properties
  let kc : KDict := match props.kubernetes_config with
    | some d => d
    | none => []
  let newEntries : KDict :=
    [("maxReplicaCount", getOr kc "maxReplicas" maxReplicas),
     ("minReplicaCount", getOr kc "minReplicas" minReplicas),
     ("cooldownPeriod", getOr kc "cooldownPeriod" cooldownPeriod),
     ("targetAverageUtilization", getOr kc "targetAverageUtilization" targetAverageUtilization),
     ("gpuTargetAverageUtilization", getOr kc "gpuTargetAverageUtilization" gpuTargetAverageUtilization),
     ("targetMemoryRequirement", getOr kc "targetMemoryRequirement" targetMemoryRequirement),
     ("targetMemoryLimit", getOr kc "targetMemoryLimit" targetMemoryLimit),
     ("volumeMountName", getOr kc "volumeMountName" volumeMountName),
     ("mountPath", getOr kc "mountPath" mountPath),
     ("numThreads", getOr kc "worker_count" worker_count),
     ("enableCuda", enable_cuda)]
  let result := newEntries.foldl (fun d kv => dictSet d kv.1 kv.2) kc
  (result, [Event.configWriteE (name ++ "_config.json") result])

/-- The method `_prepare_k8s_parameters` invoked as `get_deployment_properties` does,
with every keyword defaulted (the source's default values). -/
def prepare_k8s_parameters_dflt (name : String) (enable_cuda : PVal)
    (properties : Option Props) : KDict × List Event :=
  prepare_k8s_parameters name (.vNum 5) (.vNum 0) (.vNum 1800) (.vNum (1/2))
    (.vNum 60) (.vStr "512Mi") (.vStr "4Gi") (.vStr "efs-vpc") (.vStr "/shared")
    (.vNum 1) enable_cuda properties

/-- Python `kwargs.get(key)`: `None` when the keyword is absent. -/
def kwargGet : Option PVal → PVal
  | some v => v
  | none => .vNone

/-- The method `AiImageBuilder.get_deployment_properties`.  `image_name` and
`enable_cuda` model the keyword arguments of the same names (`kwargs.get`
yields `None` when absent; `enable_cuda` also feeds the `enableCuda` field
of the Kubernetes manifest through `_prepare_k8s_parameters`'s binding).
For `AWS_EKS`/`LOCAL_DOCKER_K8S` the manifest is computed and stored under
`kubernetes_config`; for `LOCAL_DOCKER`/`LOCAL_DOCKER_LAMBDA`/`LOCAL_DOCKER_K8S`
the flat entries `image_name`, `lambda_mode`, `enable_cuda`, `k8s_mode` are
set (`k8s_mode` is `True or None` in the source, i.e. `True` exactly for
`LOCAL_DOCKER_K8S` and `None` otherwise); every other orchestrator returns
the caller's properties unchanged. -/
def get_deployment_properties (orch : Orchestrator) (name : String)
    (properties : Option Props) (image_name enable_cuda : Option PVal) :
    Props × List Event :=
  let props := propsOrEmpty properties
  let r1 :=
    if orch = Orchestrator.AWS_EKS ∨ orch = Orchestrator.LOCAL_DOCKER_K8S then
      let r := prepare_k8s_parameters_dflt name
        (match enable_cuda with | some v => v | none => .vBool false) (some props)
      ({props with kubernetes_config := some r.1}, r.2)
    else (props, [])
  let props1 := r1.1
  let props2 :=
    if orch = Orchestrator.LOCAL_DOCKER ∨ orch = Orchestrator.LOCAL_DOCKER_LAMBDA ∨
        orch = Orchestrator.LOCAL_DOCKER_K8S then
      let e1 := dictSet props1.entries "image_name" (kwargGet image_name)
      let e2 := dictSet e1 "lambda_mode"
        (.vBool (orch = Orchestrator.LOCAL_DOCKER_LAMBDA ∨ orch = Orchestrator.AWS_LAMBDA))
      let e3 := dictSet e2 "enable_cuda" (kwargGet enable_cuda)
      let e4 := dictSet e3 "k8s_mode"
        (if orch = Orchestrator.LOCAL_DOCKER_K8S then .vBool true else .vNone)
      {props1 with entries := e4}
    else props1
  (props2, r1.2)

/-- The mutable state a build invocation touches: the process working
directory, the persisted cache record for this model name+version, the
current content hash of each tracked file in the model location, the set of
locally present images, and whether the `s2i` executable is on the path. -/
structure World where
  cwd : String
  cache : CacheRecord
  curHash : String → String
  localImages : List String
  s2iInstalled : Bool

/-- The fields of an `AiImageBuilder` that the build driver consults
(`environs` is observed only through the event trace).  `requirements`,
`conda_env`, `artifacts_present`, `artifacts_has_run` record the truthiness
of the corresponding constructor arguments. -/
structure Builder where
  orchestrator : Orchestrator
  entrypoint_class : String
  location : String
  name : String
  version : String
  requirements : Bool
  conda_env : Bool
  artifacts_present : Bool
  artifacts_has_run : Bool

/-- The tracked-file list of a builder, as `_track_changes` derives it from
the builder's dependency descriptors. -/
def builderTrackedFiles (b : Builder) : List String :=
  trackedFiles b.requirements b.conda_env b.artifacts_present b.artifacts_has_run

/-- The cache-file I/O performed by one `_track_changes` run, in source
order: read then unconditional rewrite of `.hash.json`, read then
unconditional rewrite of `.orchestrator.txt`. -/
def track_events : List Event :=
  [.cacheReadE ".hash.json", .cacheWriteE ".hash.json",
   .cacheReadE ".orchestrator.txt", .cacheWriteE ".orchestrator.txt"]

/-- The trace of one `_create_prediction_image_s2i` call: the unconditional
`SUPERAI_CONFIG_ROOT` update, then the Lambda flag or the four Kubernetes
flags, then the single s2i build-tool invocation with the given source and
target images. -/
def create_prediction_events (lambda_mode k8s_mode : Bool) (src tgt : String) :
    List Event :=
  [Event.envAddE "SUPERAI_CONFIG_ROOT"] ++
  (if lambda_mode then [Event.envAddE "LAMBDA_MODE=true"]
   else if k8s_mode then
     [Event.envAddE "SERVICE_TYPE=MODEL", Event.envAddE "PERSISTENCE=0",
      Event.envAddE "API_TYPE=REST", Event.envAddE "SELDON_MODE=true"]
   else []) ++
  [Event.s2iBuildE src tgt]

/-- The dependency-layer image tag `f"{image_name}-pip-layer:{version_tag}"`. -/
def pipLayerName (image_name version_tag : String) : String :=
  image_name ++ "-pip-layer:" ++ version_tag

/-- The body of `AiImageBuilder.build_image_s2i` (before the `@reset_workdir`
wrapper), step by step in source order: compute `k8s_mode`/`lambda_mode`,
`os.chdir(self.location)`, run `_track_changes`, create the docker client,
resolve the base name (note the source passes neither `use_internal` nor a
version to `_get_base_name`, so internal use is driven solely by
`settings.current_env` and the schema version is always 1); on
`always_download` pull the base unconditionally and force `from_scratch`;
look the base up locally, pulling on `ImageNotFound`; require `s2i` on the
path; force `from_scratch` when changes were detected, otherwise look up the
dependency-layer image and force `from_scratch` when it is absent; when
`from_scratch`, delete `BUILD_PIP` and run stage 1 (base → pip layer); set
`BUILD_PIP=false`; always run stage 2 (pip layer → `<name>:<version>`).
(`use_internal` is accepted and ignored, exactly as in the source, which
never forwards it to `_get_base_name`.) -/
def build_image_s2i_raw (b : Builder) (image_name version_tag : String)
    (enable_cuda enable_eia cuda_devel from_scratch always_download _use_internal : Bool)
    (current_env : String) (w : World) :
    Except String String × World × List Event :=
  let k8s_mode := k8sMode b.orchestrator
  let lambda_mode := lambdaMode b.orchestrator
  let tc := track_changes (builderTrackedFiles b) w.curHash b.orchestrator w.cache
  let changed := tc.1
  let w2 : World := {w with cwd := b.location, cache := tc.2}
  let ev2 : List Event := Event.evChdir b.location :: track_events ++ [Event.dockerClientE]
  match get_base_name enable_eia lambda_mode enable_cuda cuda_devel k8s_mode 1 false
      current_env with
  | .error e => (.error e, w2, ev2)
  | .ok base_image =>
    let w3 : World :=
      if always_download then {w2 with localImages := base_image :: w2.localImages} else w2
    let ev3 := if always_download then ev2 ++ [Event.registryPullE base_image] else ev2
    let fs1 := if always_download then true else from_scratch
    let w4 : World :=
      if base_image ∈ w3.localImages then w3
      else {w3 with localImages := base_image :: w3.localImages}
    let ev4 := ev3 ++
      (if base_image ∈ w3.localImages then [Event.imageGetE base_image]
       else [Event.imageGetE base_image, Event.registryPullE base_image])
    if w.s2iInstalled = false then
      (.error "s2i is not installed", w4, ev4)
    else
      let pip := pipLayerName image_name version_tag
      let fs2 := if changed then true else if pip ∈ w4.localImages then fs1 else true
      let ev5 := if changed then ev4 else ev4 ++ [Event.imageGetE pip]
      let w5 : World :=
        if fs2 then {w4 with localImages := pip :: w4.localImages} else w4
      let ev6 :=
        if fs2 then
          ev5 ++ Event.envDeleteE "BUILD_PIP" ::
            create_prediction_events lambda_mode k8s_mode base_image pip
        else ev5
      let full := full_image_name image_name version_tag
      let ev7 := ev6 ++ [Event.envAddE "BUILD_PIP=false"] ++
        create_prediction_events lambda_mode k8s_mode pip full
      (.ok full, {w5 with localImages := full :: w5.localImages}, ev7)

/-- The `reset_workdir` decorator: run the wrapped action, then restore the
working directory in a `finally` block, on normal return and on error alike. -/
def reset_workdir {α : Type} (f : World → α × World × List Event) :
    World → α × World × List Event :=
  fun w =>
    let r := f w
    (r.1, {r.2.1 with cwd := w.cwd}, r.2.2)

/-- The method `AiImageBuilder.build_image_s2i`: the raw body under `@reset_workdir`. -/
def build_image_s2i (b : Builder) (image_name version_tag : String)
    (enable_cuda enable_eia cuda_devel from_scratch always_download use_internal : Bool)
    (current_env : String) : World → Except String String × World × List Event :=
  reset_workdir (build_image_s2i_raw b image_name version_tag enable_cuda enable_eia
    cuda_devel from_scratch always_download use_internal current_env)

/-- The method `AiImageBuilder.prepare_entrypoint` (prediction builder): the files
written per orchestrator family — handler plus server entrypoint for the
local-docker/sagemaker family, handler only for the Lambda family, nothing
for the Kubernetes family, `NotImplementedError` otherwise (`MINIKUBE`). -/
def prepare_entrypoint (o : Orchestrator) : Except String (List Event) :=
  if o = Orchestrator.LOCAL_DOCKER ∨ o = Orchestrator.AWS_SAGEMAKER ∨
      o = Orchestrator.AWS_SAGEMAKER_ASYNC then
    .ok [.writeFileE "handler.py", .writeFileE "dockerd-entrypoint.py"]
  else if o = Orchestrator.LOCAL_DOCKER_LAMBDA ∨ o = Orchestrator.AWS_LAMBDA then
    .ok [.writeFileE "handler.py"]
  else if o = Orchestrator.AWS_EKS ∨ o = Orchestrator.LOCAL_DOCKER_K8S then
    .ok []
  else
    .error "NotImplementedError"

/-- The method `AiImageBuilder.build_image` (prediction builder), in source
order: first the loop
`for key, value in kwargs.get("envs", {}).items(): self.environs.add_or_update(key, value)`
— modelled by the `envs` key/value list, one environment-file edit event per
entry, performed before anything else and on every path, `skip_build`
included; then `prepare` (entrypoint preparation, which raises for
`MINIKUBE`); then either the s2i build or — under `skip_build` — just
`full_image_name`; and finally `get_deployment_properties` (whose
`image_name` kwarg is the computed image name and whose `enable_cuda` kwarg
is the boolean flag). -/
def build_image (b : Builder)
    (cuda_devel enable_cuda enable_eia skip_build build_all_layers download_base
      use_internal : Bool)
    (envs : List (String × String)) (properties : Option Props) (current_env : String)
    (w : World) :
    Except String (String × Props) × World × List Event :=
  let envEvents := envs.map fun kv => Event.envAddE kv.1
  match prepare_entrypoint b.orchestrator with
  | .error e => (.error e, w, envEvents)
  | .ok evP =>
    if skip_build then
      let image_name := full_image_name b.name b.version
      let r := get_deployment_properties b.orchestrator b.name properties
        (some (.vStr image_name)) (some (.vBool enable_cuda))
      (.ok (image_name, r.1), w, envEvents ++ (evP ++ r.2))
    else
      match build_image_s2i b b.name b.version enable_cuda enable_eia cuda_devel
          build_all_layers download_base use_internal current_env w with
      | (.error e, w1, ev) => (.error e, w1, envEvents ++ (evP ++ ev))
      | (.ok image_name, w1, ev) =>
        let r := get_deployment_properties b.orchestrator b.name properties
          (some (.vStr image_name)) (some (.vBool enable_cuda))
        (.ok (image_name, r.1), w1, envEvents ++ (evP ++ ev ++ r.2))

/-- The s2i build-tool invocations of a trace, as (source, target) pairs. -/
def s2iInvocations (evs : List Event) : List (String × String) :=
  evs.filterMap fun e =>
    match e with
    | .s2iBuildE s t => some (s, t)
    | _ => none

/-- Events of the build pipeline proper — the actions claim C9 rules out
under `skip_build`: the scoped directory change, cache-file reads/writes
(change detection), docker-client creation, local image lookups and
registry pulls (provisioning), and build-tool invocations.
Environment-file edits are NOT in this set: `build_image` performs the
`envs` updates before `prepare` on every path, `skip_build` included, and
the stage-1 `BUILD_PIP` edits can only accompany a build-tool run. -/
def isBuildPipelineEvent : Event → Bool
  | .evChdir _ => true
  | .cacheReadE _ => true
  | .cacheWriteE _ => true
  | .dockerClientE => true
  | .imageGetE _ => true
  | .registryPullE _ => true
  | .envDeleteE _ => false
  | .envAddE _ => false
  | .s2iBuildE _ _ => true
  | .writeFileE _ => false
  | .configWriteE _ _ => false

/-- A concrete prediction builder used for witnesses and counterexamples:
model `m` version `1` at `/model`, with declared requirements only. -/
def exampleBuilder (o : Orchestrator) : Builder :=
  { orchestrator := o, entrypoint_class := "MyModel", location := "/model",
    name := "m", version := "1", requirements := true, conda_env := false,
    artifacts_present := false, artifacts_has_run := false }

/-- A concrete world whose cache record matches the current content hashes
and previous orchestrator `LOCAL_DOCKER`, and whose local images include the
resolved CPU base image and the cached pip-layer image. -/
def exampleWorld : World :=
  { cwd := "/home",
    cache := { hashes := [("requirements.txt", "h")],
               orch := some Orchestrator.LOCAL_DOCKER },
    curHash := fun _ => "h",
    localImages := ["superai-model-s2i-python3711-cpu:1", "m-pip-layer:1"],
    s2iInstalled := true }

/-- A concrete world with an empty (first-build) cache and no local images. -/
def emptyWorld : World :=
  { cwd := "/home", cache := { hashes := [], orch := none },
    curHash := fun _ => "h", localImages := [], s2iInstalled := true }

/-! ## Change-detection lemmas -/

lemma hashLookup_hashInsert (m : List (String × String)) (k v key : String) :
    hashLookup (hashInsert m k v) key = if k = key then some v else hashLookup m key := by
  induction m with
  | nil => simp [hashInsert, hashLookup]
  | cons kv rest ih =>
    obtain ⟨k0, v0⟩ := kv
    by_cases h0 : k0 = k
    · subst h0
      simp only [hashInsert, if_pos rfl, hashLookup]
      by_cases h : k0 = key <;> simp [h]
    · simp only [hashInsert, if_neg h0, hashLookup]
      by_cases h : k0 = key
      · subst h
        have hk : ¬k = k0 := fun hh => h0 hh.symm
        simp [hk]
      · simp [h, ih]

lemma trackFold_fst (files : List String) (h : String → String)
    (m : List (String × String)) (c : Bool) :
    (trackFold files h m c).1 =
      (c || files.any fun f => decide (hashLookup m f ≠ some (h f))) := by
  induction files generalizing m c with
  | nil => simp [trackFold]
  | cons f fs ih =>
    simp only [trackFold]
    rw [ih, List.any_cons]
    by_cases hm : hashLookup m f = some (h f)
    · rw [if_pos hm]
      have hfun : (fun g => decide (hashLookup (hashInsert m f (h f)) g ≠ some (h g))) =
          fun g => decide (hashLookup m g ≠ some (h g)) := by
        funext g
        by_cases hg : g = f
        · subst hg
          simp [hashLookup_hashInsert, hm]
        · simp [hashLookup_hashInsert, Ne.symm hg]
      rw [hfun]
      simp [hm]
    · rw [if_neg hm]
      simp [hm]

lemma trackFold_snd (files : List String) (h : String → String)
    (m : List (String × String)) (c : Bool) (x : String) :
    hashLookup (trackFold files h m c).2 x =
      if x ∈ files then some (h x) else hashLookup m x := by
  induction files generalizing m c with
  | nil => simp [trackFold]
  | cons f fs ih =>
    simp only [trackFold, ih]
    by_cases hx : x ∈ fs
    · simp [hx, List.mem_cons]
    · by_cases hxf : x = f
      · subst hxf
        simp [hx, hashLookup_hashInsert]
      · simp [hx, hxf, Ne.symm hxf, hashLookup_hashInsert]

lemma track_changes_fst_iff (files : List String) (h : String → String)
    (orch : Orchestrator) (cache : CacheRecord) :
    ((track_changes files h orch cache).1 = true ↔
      ((∃ f ∈ files, hashLookup cache.hashes f ≠ some (h f)) ∨ cache.orch ≠ some orch)) := by
  by_cases ho : cache.orch = some orch
  · simp [track_changes, ho, trackFold_fst, List.any_eq_true]
  · simp [track_changes, ho, trackFold_fst]

lemma track_changes_snd_hashes (files : List String) (h : String → String)
    (orch : Orchestrator) (cache : CacheRecord) (x : String) :
    hashLookup (track_changes files h orch cache).2.hashes x =
      if x ∈ files then some (h x) else hashLookup cache.hashes x := by
  simp [track_changes, trackFold_snd]

lemma track_changes_snd_orch (files : List String) (h : String → String)
    (orch : Orchestrator) (cache : CacheRecord) :
    (track_changes files h orch cache).2.orch = some orch := by
  simp [track_changes]

/-- Claim C2: across two consecutive `_track_changes` runs for the same model
name and version, the second run reports `changed = true` iff some tracked
file's current content hash differs from the hash the first run persisted for
that file name (an absent entry counts as differing) or the orchestrator
differs from the recorded one; consequently, with identical tracked files,
identical contents and identical orchestrator the second run reports
`changed = false`. -/
theorem track_changes_second_run_iff (files1 files2 : List String)
    (h1 h2 : String → String) (orch1 orch2 : Orchestrator) (cache0 : CacheRecord) :
    (((track_changes files2 h2 orch2 (track_changes files1 h1 orch1 cache0).2).1 = true ↔
        ((∃ f ∈ files2,
            hashLookup (track_changes files1 h1 orch1 cache0).2.hashes f ≠ some (h2 f)) ∨
          orch2 ≠ orch1)) ∧
      (files2 = files1 → h2 = h1 → orch2 = orch1 →
        (track_changes files2 h2 orch2 (track_changes files1 h1 orch1 cache0).2).1 = false)) := by
  constructor
  · rw [track_changes_fst_iff]
    rw [track_changes_snd_orch]
    simp [ne_comm]
  · intro hf hh ho
    subst hf; subst hh; subst ho
    rw [← Bool.not_eq_true, track_changes_fst_iff, track_changes_snd_orch]
    push_neg
    refine ⟨fun f hf => ?_, rfl⟩
    rw [track_changes_snd_hashes]
    simp [hf]

/-- Claim C10: one `_track_changes` run rewrites the persisted hash record
exactly at the names tracked in this run and retains every other entry
unchanged; hence a dependency file tracked in a first run, dropped from the
tracked set in a second run, and tracked again with identical content in a
third run (same orchestrator throughout, no other tracked files) does not
mark the third run as changed. -/
theorem track_changes_record_update (files : List String) (h : String → String)
    (orch : Orchestrator) (cache : CacheRecord) (x f : String) (hc : String → String)
    (orch3 : Orchestrator) (cache0 : CacheRecord) :
    (hashLookup (track_changes files h orch cache).2.hashes x =
        (if x ∈ files then some (h x) else hashLookup cache.hashes x)) ∧
      ((track_changes [f] hc orch3
          (track_changes [] hc orch3 (track_changes [f] hc orch3 cache0).2).2).1 = false) := by
  refine ⟨track_changes_snd_hashes files h orch cache x, ?_⟩
  rw [← Bool.not_eq_true, track_changes_fst_iff]
  push_neg
  refine ⟨fun g hg => ?_, by rw [track_changes_snd_orch]⟩
  have hg1 : g = f := by simpa using hg
  subst hg1
  rw [track_changes_snd_hashes, track_changes_snd_hashes]
  simp

/-! ## Base-image resolver and working-directory restoration -/

/-- Claim C7: the base-image resolver on
`enable_cuda = true, cuda_devel = false, enable_eia = false,
lambda_mode = false, k8s_mode = false, use_internal = false` against an
active environment that is not the development environment returns exactly
`"superai-model-s2i-python3711-gpu:1"`. -/
theorem get_base_name_gpu_nondev (env : String) (h : env ≠ "dev") :
    get_base_name false false true false false 1 false env =
      .ok "superai-model-s2i-python3711-gpu:1" := by
  have hd : decide (env = "dev") = false := by simp [h]
  simp only [get_base_name, hd, Bool.or_false, Bool.false_or]
  rfl

/-- Witness for C7 at the concrete environment `"prod"`. -/
theorem get_base_name_gpu_nondev_witness :
    get_base_name false false true false false 1 false "prod" =
      .ok "superai-model-s2i-python3711-gpu:1" :=
  get_base_name_gpu_nondev "prod" (by decide)

/-- Claim C8: `build_image_s2i` runs under the `reset_workdir` decorator,
whose `finally` block restores the working directory on every exit path:
for every invocation (any flags, any world, normal return or error) the
working directory of the resulting world equals the one before the call. -/
theorem build_image_s2i_restores_cwd (b : Builder) (image_name version_tag : String)
    (enable_cuda enable_eia cuda_devel from_scratch always_download use_internal : Bool)
    (current_env : String) (w : World) :
    (build_image_s2i b image_name version_tag enable_cuda enable_eia cuda_devel
      from_scratch always_download use_internal current_env w).2.1.cwd = w.cwd := by
  simp only [build_image_s2i, reset_workdir]

/-! ## Deployment-property synthesis -/

lemma dictGet_dictSet (d : KDict) (k : String) (v : PVal) (key : String) :
    dictGet (dictSet d k v) key = if k = key then some v else dictGet d key := by
  induction d with
  | nil => simp [dictSet, dictGet]
  | cons kv rest ih =>
    obtain ⟨k0, v0⟩ := kv
    by_cases h0 : k0 = k
    · subst h0
      simp only [dictSet, if_pos rfl, dictGet]
      by_cases hk : k0 = key <;> simp [hk]
    · simp only [dictSet, if_neg h0, dictGet]
      by_cases hk : k0 = key
      · subst hk
        have hkk : ¬k = k0 := fun hh => h0 hh.symm
        simp [hkk]
      · simp [hk, ih]

lemma prepare_k8s_dflt_spec (name : String) (ec : PVal) (entries kc : KDict) :
    (prepare_k8s_parameters_dflt name ec (some ⟨entries, some kc⟩)).2 =
        [Event.configWriteE (name ++ "_config.json")
          (prepare_k8s_parameters_dflt name ec (some ⟨entries, some kc⟩)).1] ∧
      dictGet (prepare_k8s_parameters_dflt name ec (some ⟨entries, some kc⟩)).1
          "maxReplicaCount" = some (getOr kc "maxReplicas" (.vNum 5)) ∧
      dictGet (prepare_k8s_parameters_dflt name ec (some ⟨entries, some kc⟩)).1
          "minReplicaCount" = some (getOr kc "minReplicas" (.vNum 0)) ∧
      dictGet (prepare_k8s_parameters_dflt name ec (some ⟨entries, some kc⟩)).1
          "cooldownPeriod" = some (getOr kc "cooldownPeriod" (.vNum 1800)) ∧
      dictGet (prepare_k8s_parameters_dflt name ec (some ⟨entries, some kc⟩)).1
          "targetAverageUtilization" =
          some (getOr kc "targetAverageUtilization" (.vNum (1 / 2))) ∧
      dictGet (prepare_k8s_parameters_dflt name ec (some ⟨entries, some kc⟩)).1
          "gpuTargetAverageUtilization" =
          some (getOr kc "gpuTargetAverageUtilization" (.vNum 60)) ∧
      dictGet (prepare_k8s_parameters_dflt name ec (some ⟨entries, some kc⟩)).1
          "targetMemoryRequirement" =
          some (getOr kc "targetMemoryRequirement" (.vStr "512Mi")) ∧
      dictGet (prepare_k8s_parameters_dflt name ec (some ⟨entries, some kc⟩)).1
          "targetMemoryLimit" = some (getOr kc "targetMemoryLimit" (.vStr "4Gi")) ∧
      dictGet (prepare_k8s_parameters_dflt name ec (some ⟨entries, some kc⟩)).1
          "volumeMountName" = some (getOr kc "volumeMountName" (.vStr "efs-vpc")) ∧
      dictGet (prepare_k8s_parameters_dflt name ec (some ⟨entries, some kc⟩)).1
          "mountPath" = some (getOr kc "mountPath" (.vStr "/shared")) ∧
      dictGet (prepare_k8s_parameters_dflt name ec (some ⟨entries, some kc⟩)).1
          "numThreads" = some (getOr kc "worker_count" (.vNum 1)) ∧
      dictGet (prepare_k8s_parameters_dflt name ec (some ⟨entries, some kc⟩)).1
          "enableCuda" = some ec := by
  refine ⟨rfl, ?_, ?_, ?_, ?_, ?_, ?_, ?_, ?_, ?_, ?_, ?_⟩ <;>
    simp [prepare_k8s_parameters_dflt, prepare_k8s_parameters, propsOrEmpty,
      List.foldl, dictGet_dictSet]

/-- Claim C5 (amended): for a Kubernetes-style orchestrator
(`AWS_EKS` or `LOCAL_DOCKER_K8S`), `get_deployment_properties` stores under
`kubernetes_config` a manifest in which each field equals the caller's
override when one is supplied under the source's read-key and is truthy,
and the fixed default otherwise (Python `or` semantics: a falsy override
such as `0` or `""` falls back to the default); the replica-bound and
thread-count overrides are read under `maxReplicas`/`minReplicas`/
`worker_count` while being emitted as `maxReplicaCount`/`minReplicaCount`/
`numThreads`; `enableCuda` carries the cuda flag; and exactly that manifest
is written to `<name>_config.json`. -/
theorem get_deployment_properties_k8s_manifest (orch : Orchestrator)
    (horch : orch = Orchestrator.AWS_EKS ∨ orch = Orchestrator.LOCAL_DOCKER_K8S)
    (name : String) (entries kc : KDict) (img : Option PVal) (ec : PVal) :
    ∃ M,
      (get_deployment_properties orch name (some ⟨entries, some kc⟩) img
          (some ec)).1.kubernetes_config = some M ∧
      (get_deployment_properties orch name (some ⟨entries, some kc⟩) img
          (some ec)).2 = [Event.configWriteE (name ++ "_config.json") M] ∧
      dictGet M "maxReplicaCount" = some (getOr kc "maxReplicas" (.vNum 5)) ∧
      dictGet M "minReplicaCount" = some (getOr kc "minReplicas" (.vNum 0)) ∧
      dictGet M "cooldownPeriod" = some (getOr kc "cooldownPeriod" (.vNum 1800)) ∧
      dictGet M "targetAverageUtilization" =
        some (getOr kc "targetAverageUtilization" (.vNum (1 / 2))) ∧
      dictGet M "gpuTargetAverageUtilization" =
        some (getOr kc "gpuTargetAverageUtilization" (.vNum 60)) ∧
      dictGet M "targetMemoryRequirement" =
        some (getOr kc "targetMemoryRequirement" (.vStr "512Mi")) ∧
      dictGet M "targetMemoryLimit" = some (getOr kc "targetMemoryLimit" (.vStr "4Gi")) ∧
      dictGet M "volumeMountName" = some (getOr kc "volumeMountName" (.vStr "efs-vpc")) ∧
      dictGet M "mountPath" = some (getOr kc "mountPath" (.vStr "/shared")) ∧
      dictGet M "numThreads" = some (getOr kc "worker_count" (.vNum 1)) ∧
      dictGet M "enableCuda" = some ec := by
  obtain ⟨hev, h1, h2, h3, h4, h5, h6, h7, h8, h9, h10, h11⟩ :=
    prepare_k8s_dflt_spec name ec entries kc
  rcases horch with h | h <;> subst h <;>
    exact ⟨(prepare_k8s_parameters_dflt name ec (some ⟨entries, some kc⟩)).1,
      by simp [get_deployment_properties, propsOrEmpty],
      by simpa [get_deployment_properties, propsOrEmpty] using hev,
      h1, h2, h3, h4, h5, h6, h7, h8, h9, h10, h11⟩

/-- Witness for C5 at a concrete input: `AWS_EKS`, no caller overrides —
the manifest carries the defaults `minReplicaCount = 0`,
`maxReplicaCount = 5`, `cooldownPeriod = 1800`. -/
theorem get_deployment_properties_k8s_manifest_witness :
    ∃ M,
      (get_deployment_properties Orchestrator.AWS_EKS "m" (some ⟨[], some []⟩) none
          (some (PVal.vBool false))).1.kubernetes_config = some M ∧
      dictGet M "maxReplicaCount" = some (PVal.vNum 5) ∧
      dictGet M "minReplicaCount" = some (PVal.vNum 0) ∧
      dictGet M "cooldownPeriod" = some (PVal.vNum 1800) := by
  obtain ⟨M, hA, _, g1, g2, g3, _⟩ :=
    get_deployment_properties_k8s_manifest Orchestrator.AWS_EKS (Or.inl rfl) "m" [] []
      none (PVal.vBool false)
  exact ⟨M, hA, g1, g2, g3⟩

/-- Counterexample to C5 as stated: a caller-supplied override is NOT always
honored — supplying `cooldownPeriod = 0` (falsy) under `kubernetes_config`
yields a manifest whose `cooldownPeriod` is the default `1800`, not the
supplied `0`. -/
theorem k8s_manifest_falsy_override_cex :
    (match (get_deployment_properties Orchestrator.AWS_EKS "m"
        (some ⟨[], some [("cooldownPeriod", PVal.vNum 0)]⟩) none none).1.kubernetes_config
      with
      | some M => dictGet M "cooldownPeriod"
      | none => none) = some (PVal.vNum 1800) ∧ PVal.vNum 1800 ≠ PVal.vNum 0 := by
  refine ⟨rfl, by decide⟩

/-- Counterexample to C6 as stated: for the sagemaker variants the source's
second membership test (`LOCAL_DOCKER`, `LOCAL_DOCKER_LAMBDA`,
`LOCAL_DOCKER_K8S`) does not include them, so `get_deployment_properties`
for `AWS_SAGEMAKER` returns the caller's properties unchanged — here the
empty map, with no `image_name` entry — although an image reference was
available as a keyword argument. -/
theorem sagemaker_props_no_image_cex :
    (get_deployment_properties Orchestrator.AWS_SAGEMAKER "m" none
        (some (PVal.vStr "m:1")) (some (PVal.vBool false))) = (⟨[], none⟩, []) ∧
      dictGet (get_deployment_properties Orchestrator.AWS_SAGEMAKER "m" none
        (some (PVal.vStr "m:1")) (some (PVal.vBool false))).1.entries "image_name" =
        none :=
  ⟨rfl, rfl⟩

/-- Claim C6 (amended): the flat map with the image reference, the boolean
Lambda-mode flag, the CUDA flag and a `k8s_mode` entry is produced exactly
for the local-docker family (`LOCAL_DOCKER`, `LOCAL_DOCKER_LAMBDA`,
`LOCAL_DOCKER_K8S`); the `k8s_mode` key is present in all three with value
`True` for `LOCAL_DOCKER_K8S` and `None` for the other two; the sagemaker
variants (`AWS_SAGEMAKER`, `AWS_SAGEMAKER_ASYNC`) are not in the source's
membership list and return the caller-supplied properties unchanged. -/
theorem get_deployment_properties_flat_map (name : String) (props : Option Props)
    (img ec : Option PVal) :
    (∀ orch : Orchestrator,
      orch = Orchestrator.LOCAL_DOCKER ∨ orch = Orchestrator.LOCAL_DOCKER_LAMBDA ∨
        orch = Orchestrator.LOCAL_DOCKER_K8S →
      dictGet (get_deployment_properties orch name props img ec).1.entries "image_name" =
          some (kwargGet img) ∧
      dictGet (get_deployment_properties orch name props img ec).1.entries "lambda_mode" =
          some (.vBool (orch = Orchestrator.LOCAL_DOCKER_LAMBDA ∨
            orch = Orchestrator.AWS_LAMBDA)) ∧
      dictGet (get_deployment_properties orch name props img ec).1.entries "enable_cuda" =
          some (kwargGet ec) ∧
      dictGet (get_deployment_properties orch name props img ec).1.entries "k8s_mode" =
          some (if orch = Orchestrator.LOCAL_DOCKER_K8S then PVal.vBool true
            else PVal.vNone)) ∧
    (∀ orch : Orchestrator,
      orch = Orchestrator.AWS_SAGEMAKER ∨ orch = Orchestrator.AWS_SAGEMAKER_ASYNC →
      get_deployment_properties orch name props img ec = (propsOrEmpty props, [])) := by
  constructor
  · intro orch h
    rcases h with h | h | h <;> subst h <;>
      refine ⟨?_, ?_, ?_, ?_⟩ <;>
        simp [get_deployment_properties, dictGet_dictSet]
  · intro orch h
    rcases h with h | h <;> subst h <;> rfl

/-! ## Layered build driver: traces -/

lemma s2iInvocations_nil : s2iInvocations [] = [] := rfl

lemma s2iInvocations_append (l1 l2 : List Event) :
    s2iInvocations (l1 ++ l2) = s2iInvocations l1 ++ s2iInvocations l2 := by
  simp [s2iInvocations, List.filterMap_append]

lemma s2iInvocations_cons (e : Event) (l : List Event) :
    s2iInvocations (e :: l) =
      (match e with
        | Event.s2iBuildE s t => (s, t) :: s2iInvocations l
        | _ => s2iInvocations l) := by
  cases e <;> simp [s2iInvocations, List.filterMap_cons]

lemma s2iInvocations_create_prediction (lm km : Bool) (s t : String) :
    s2iInvocations (create_prediction_events lm km s t) = [(s, t)] := by
  cases lm <;> cases km <;> rfl

/-- Claim C1: on a build with `build_all_layers = false` and
`download_base = false` (so `from_scratch = false`, `always_download = false`),
when change detection reports no change and the dependency-layer image
`<name>-pip-layer:<version>` is present locally, the s2i build tool is
invoked exactly once — stage 2 only, from the pip layer to
`<name>:<version>`; when change detection reports a change, it is invoked
exactly twice — stage 1 from the resolved base image to the pip layer, then
stage 2 from the pip layer to `<name>:<version>`. -/
theorem build_s2i_layer_reuse (b : Builder) (image_name version_tag : String)
    (enable_cuda enable_eia cuda_devel ui : Bool) (current_env : String) (w : World)
    (base : String) (hs2i : w.s2iInstalled = true)
    (hbase : get_base_name enable_eia (lambdaMode b.orchestrator) enable_cuda cuda_devel
      (k8sMode b.orchestrator) 1 false current_env = Except.ok base) :
    (((track_changes (builderTrackedFiles b) w.curHash b.orchestrator w.cache).1 = false →
        pipLayerName image_name version_tag ∈ w.localImages →
        s2iInvocations (build_image_s2i b image_name version_tag enable_cuda enable_eia
            cuda_devel false false ui current_env w).2.2 =
          [(pipLayerName image_name version_tag,
            full_image_name image_name version_tag)]) ∧
      ((track_changes (builderTrackedFiles b) w.curHash b.orchestrator w.cache).1 = true →
        s2iInvocations (build_image_s2i b image_name version_tag enable_cuda enable_eia
            cuda_devel false false ui current_env w).2.2 =
          [(base, pipLayerName image_name version_tag),
           (pipLayerName image_name version_tag,
            full_image_name image_name version_tag)])) := by
  constructor
  · intro hch hpip
    by_cases hf : base ∈ w.localImages <;>
      simp [build_image_s2i, reset_workdir, build_image_s2i_raw, hbase, hch, hs2i, hf,
        hpip, List.mem_cons, track_events, s2iInvocations_append, s2iInvocations_cons,
        s2iInvocations_nil, s2iInvocations_create_prediction]
  · intro hch
    by_cases hf : base ∈ w.localImages <;>
      simp [build_image_s2i, reset_workdir, build_image_s2i_raw, hbase, hch, hs2i, hf,
        List.mem_cons, track_events, s2iInvocations_append, s2iInvocations_cons,
        s2iInvocations_nil, s2iInvocations_create_prediction]

/-- Claim C3: with `download_base = true` (`always_download`), the base image
is pulled from the registry unconditionally — in particular even when it is
already present locally, as the universally quantified world shows — and the
s2i build tool runs both stages (base → pip layer, pip layer →
`<name>:<version>`) regardless of the change-detection result and of whether
a cached dependency-layer image exists. -/
theorem build_s2i_forced_refresh (b : Builder) (image_name version_tag : String)
    (enable_cuda enable_eia cuda_devel from_scratch ui : Bool) (current_env : String)
    (w : World) (base : String) (hs2i : w.s2iInstalled = true)
    (hbase : get_base_name enable_eia (lambdaMode b.orchestrator) enable_cuda cuda_devel
      (k8sMode b.orchestrator) 1 false current_env = Except.ok base) :
    Event.registryPullE base ∈ (build_image_s2i b image_name version_tag enable_cuda
        enable_eia cuda_devel from_scratch true ui current_env w).2.2 ∧
      s2iInvocations (build_image_s2i b image_name version_tag enable_cuda enable_eia
          cuda_devel from_scratch true ui current_env w).2.2 =
        [(base, pipLayerName image_name version_tag),
         (pipLayerName image_name version_tag,
          full_image_name image_name version_tag)] := by
  rcases Bool.eq_false_or_eq_true
      ((track_changes (builderTrackedFiles b) w.curHash b.orchestrator w.cache).1) with
    hch | hch <;>
    by_cases hp : pipLayerName image_name version_tag ∈ base :: w.localImages <;>
      constructor <;>
        simp [build_image_s2i, reset_workdir, build_image_s2i_raw, hbase, hch, hs2i, hp,
          List.mem_cons, List.mem_append, track_events, s2iInvocations_append,
          s2iInvocations_cons, s2iInvocations_nil, s2iInvocations_create_prediction]

/-- Claim C4 (amended): requesting EIA together with a Lambda-mode
orchestrator makes `build_image_s2i` fail with the invalid-combination
`ValueError`, with no image lookup, registry operation or build-tool
invocation — but not before all I/O: the source runs `os.chdir` and
`_track_changes` (which reads and rewrites both cache files) and creates
the docker client before `_get_base_name` raises, so the trace up to the
error is exactly the directory change, the four cache-file operations and
the docker-client creation, and the persisted cache record has already been
updated. -/
theorem build_s2i_eia_lambda_error (b : Builder) (image_name version_tag : String)
    (enable_cuda cuda_devel from_scratch always_download ui : Bool)
    (current_env : String) (w : World) (hl : lambdaMode b.orchestrator = true) :
    build_image_s2i b image_name version_tag enable_cuda true cuda_devel from_scratch
        always_download ui current_env w =
      (Except.error "Cannot use EIA with other options",
       {w with cache :=
          (track_changes (builderTrackedFiles b) w.curHash b.orchestrator w.cache).2},
       Event.evChdir b.location :: (track_events ++ [Event.dockerClientE])) := by
  simp [build_image_s2i, reset_workdir, build_image_s2i_raw, get_base_name, hl]

/-- Witness for C1 at a concrete input: unchanged cache, pip layer present,
`LOCAL_DOCKER`, all flags off — exactly one s2i invocation, stage 2 only. -/
theorem build_s2i_layer_reuse_witness :
    s2iInvocations (build_image_s2i (exampleBuilder Orchestrator.LOCAL_DOCKER) "m" "1"
        false false false false false false "prod" exampleWorld).2.2 =
      [("m-pip-layer:1", "m:1")] := by
  have h := build_s2i_layer_reuse (exampleBuilder Orchestrator.LOCAL_DOCKER) "m" "1"
    false false false false "prod" exampleWorld "superai-model-s2i-python3711-cpu:1"
    rfl rfl
  exact h.1 (by decide) (by decide)

/-- Witness for C3 at a concrete input: the base image and the pip layer are
both already present locally and the cache is unchanged, yet the registry
pull happens and both stages run. -/
theorem build_s2i_forced_refresh_witness :
    Event.registryPullE "superai-model-s2i-python3711-cpu:1" ∈
        (build_image_s2i (exampleBuilder Orchestrator.LOCAL_DOCKER) "m" "1" false false
          false false true false "prod" exampleWorld).2.2 ∧
      s2iInvocations (build_image_s2i (exampleBuilder Orchestrator.LOCAL_DOCKER) "m" "1"
          false false false false true false "prod" exampleWorld).2.2 =
        [("superai-model-s2i-python3711-cpu:1", "m-pip-layer:1"),
         ("m-pip-layer:1", "m:1")] :=
  build_s2i_forced_refresh (exampleBuilder Orchestrator.LOCAL_DOCKER) "m" "1" false false
    false false false "prod" exampleWorld "superai-model-s2i-python3711-cpu:1" rfl rfl

/-- Counterexample to C4 as stated: with `enable_eia = true` and the
Lambda-mode orchestrator `AWS_LAMBDA`, the build does fail with the
invalid-combination error, but NOT before I/O: the cache file `.hash.json`
has already been written (change detection ran first) when the error is
raised. -/
theorem eia_lambda_cache_io_before_error_cex :
    (build_image_s2i (exampleBuilder Orchestrator.AWS_LAMBDA) "m" "1" false true false
        false false false "prod" emptyWorld).1 =
      Except.error "Cannot use EIA with other options" ∧
      Event.cacheWriteE ".hash.json" ∈
        (build_image_s2i (exampleBuilder Orchestrator.AWS_LAMBDA) "m" "1" false true
          false false false false "prod" emptyWorld).2.2 :=
  ⟨rfl, by decide⟩

/-- Witness for C4 (amended) at a concrete input. -/
theorem build_s2i_eia_lambda_error_witness :
    build_image_s2i (exampleBuilder Orchestrator.AWS_LAMBDA) "m" "1" false true false
        false false false "prod" emptyWorld =
      (Except.error "Cannot use EIA with other options",
       {emptyWorld with cache :=
          (track_changes (builderTrackedFiles (exampleBuilder Orchestrator.AWS_LAMBDA))
            emptyWorld.curHash (exampleBuilder Orchestrator.AWS_LAMBDA).orchestrator
            emptyWorld.cache).2},
       Event.evChdir (exampleBuilder Orchestrator.AWS_LAMBDA).location ::
         (track_events ++ [Event.dockerClientE])) :=
  build_s2i_eia_lambda_error (exampleBuilder Orchestrator.AWS_LAMBDA) "m" "1" false false
    false false false "prod" emptyWorld rfl

lemma envAdd_mem_append (envs : List (String × String)) (kv : String × String)
    (h : kv ∈ envs) (l : List Event) :
    Event.envAddE kv.1 ∈ (envs.map fun p => Event.envAddE p.1) ++ l :=
  List.mem_append_left _ (List.mem_map_of_mem _ h)

/-- Counterexample to C9 as stated: not every build request with
`skip_build = true` returns the image name — for the `MINIKUBE`
orchestrator (a legal member of the prediction builder's allowed set)
entrypoint preparation raises `NotImplementedError` before the name is
computed. -/
theorem minikube_not_implemented_cex :
    (build_image (exampleBuilder Orchestrator.MINIKUBE) false false false true false
        false false [] none "prod" emptyWorld).1 = Except.error "NotImplementedError" :=
  rfl

/-- Claim C9 (amended): for every build request whose orchestrator is not
`MINIKUBE` (where entrypoint preparation raises `NotImplementedError`),
`build_image` with `skip_build = true` returns `<name>:<version>` without
running change detection or provisioning or any build-tool invocation and
without reading or writing the cache files — no cache read/write, docker
client, image lookup, registry pull, or s2i invocation appears in the
trace, and the world (working directory, cache record, local images)
equals the initial one — while entrypoint preparation and
deployment-property synthesis still run: the handler file is written for
the handler-writing orchestrators and the `<name>_config.json` manifest
for the Kubernetes-style ones.  The environment-variable updates from the
`envs` keyword are NOT skipped: as on every path, one environment-file
edit per entry happens first. -/
theorem build_image_skip_build (b : Builder)
    (hne : b.orchestrator ≠ Orchestrator.MINIKUBE)
    (cuda_devel enable_cuda enable_eia build_all_layers download_base ui : Bool)
    (envs : List (String × String)) (properties : Option Props) (env : String)
    (w : World) :
    (∃ p, (build_image b cuda_devel enable_cuda enable_eia true build_all_layers
        download_base ui envs properties env w).1 =
        Except.ok (full_image_name b.name b.version, p)) ∧
      (build_image b cuda_devel enable_cuda enable_eia true build_all_layers
        download_base ui envs properties env w).2.1 = w ∧
      ((build_image b cuda_devel enable_cuda enable_eia true build_all_layers
          download_base ui envs properties env w).2.2.all
        fun e => !isBuildPipelineEvent e) = true ∧
      (k8sMode b.orchestrator = true →
        ∃ M, Event.configWriteE (b.name ++ "_config.json") M ∈
          (build_image b cuda_devel enable_cuda enable_eia true build_all_layers
            download_base ui envs properties env w).2.2) ∧
      ((b.orchestrator = Orchestrator.LOCAL_DOCKER ∨
          b.orchestrator = Orchestrator.AWS_SAGEMAKER ∨
          b.orchestrator = Orchestrator.AWS_SAGEMAKER_ASYNC ∨
          b.orchestrator = Orchestrator.LOCAL_DOCKER_LAMBDA ∨
          b.orchestrator = Orchestrator.AWS_LAMBDA) →
        Event.writeFileE "handler.py" ∈
          (build_image b cuda_devel enable_cuda enable_eia true build_all_layers
            download_base ui envs properties env w).2.2) ∧
      (∀ kv ∈ envs, Event.envAddE kv.1 ∈
        (build_image b cuda_devel enable_cuda enable_eia true build_all_layers
          download_base ui envs properties env w).2.2) := by
  obtain ⟨orch, ecls, loc, nm, ver, rq, ce, ap, ar⟩ := b
  cases orch
  case MINIKUBE => exact absurd rfl hne
  case LOCAL_DOCKER =>
    exact ⟨⟨_, rfl⟩, rfl,
      by
        simp [build_image, prepare_entrypoint, get_deployment_properties,
          isBuildPipelineEvent]
        rintro x x1 x2 - rfl
        rfl,
      fun h => by simp [k8sMode] at h,
      fun _ => by simp [build_image, prepare_entrypoint, get_deployment_properties],
      fun kv hkv => envAdd_mem_append envs kv hkv _⟩
  case AWS_SAGEMAKER =>
    exact ⟨⟨_, rfl⟩, rfl,
      by
        simp [build_image, prepare_entrypoint, get_deployment_properties,
          isBuildPipelineEvent]
        rintro x x1 x2 - rfl
        rfl,
      fun h => by simp [k8sMode] at h,
      fun _ => by simp [build_image, prepare_entrypoint, get_deployment_properties],
      fun kv hkv => envAdd_mem_append envs kv hkv _⟩
  case AWS_SAGEMAKER_ASYNC =>
    exact ⟨⟨_, rfl⟩, rfl,
      by
        simp [build_image, prepare_entrypoint, get_deployment_properties,
          isBuildPipelineEvent]
        rintro x x1 x2 - rfl
        rfl,
      fun h => by simp [k8sMode] at h,
      fun _ => by simp [build_image, prepare_entrypoint, get_deployment_properties],
      fun kv hkv => envAdd_mem_append envs kv hkv _⟩
  case LOCAL_DOCKER_LAMBDA =>
    exact ⟨⟨_, rfl⟩, rfl,
      by
        simp [build_image, prepare_entrypoint, get_deployment_properties,
          isBuildPipelineEvent]
        rintro x x1 x2 - rfl
        rfl,
      fun h => by simp [k8sMode] at h,
      fun _ => by simp [build_image, prepare_entrypoint, get_deployment_properties],
      fun kv hkv => envAdd_mem_append envs kv hkv _⟩
  case AWS_LAMBDA =>
    exact ⟨⟨_, rfl⟩, rfl,
      by
        simp [build_image, prepare_entrypoint, get_deployment_properties,
          isBuildPipelineEvent]
        rintro x x1 x2 - rfl
        rfl,
      fun h => by simp [k8sMode] at h,
      fun _ => by simp [build_image, prepare_entrypoint, get_deployment_properties],
      fun kv hkv => envAdd_mem_append envs kv hkv _⟩
  case LOCAL_DOCKER_K8S =>
    refine ⟨⟨_, rfl⟩, rfl, ?_, ?_, ?_, fun kv hkv => envAdd_mem_append envs kv hkv _⟩
    · simp [build_image, prepare_entrypoint, get_deployment_properties,
        prepare_k8s_parameters_dflt, prepare_k8s_parameters, isBuildPipelineEvent]
      rintro x x1 x2 - rfl
      rfl
    · intro _
      refine ⟨(prepare_k8s_parameters_dflt nm (PVal.vBool enable_cuda)
        (some (propsOrEmpty properties))).1, ?_⟩
      simp [build_image, prepare_entrypoint, get_deployment_properties,
        prepare_k8s_parameters_dflt, prepare_k8s_parameters]
    · intro h
      simp at h
  case AWS_EKS =>
    refine ⟨⟨_, rfl⟩, rfl, ?_, ?_, ?_, fun kv hkv => envAdd_mem_append envs kv hkv _⟩
    · simp [build_image, prepare_entrypoint, get_deployment_properties,
        prepare_k8s_parameters_dflt, prepare_k8s_parameters, isBuildPipelineEvent]
      rintro x x1 x2 - rfl
      rfl
    · intro _
      refine ⟨(prepare_k8s_parameters_dflt nm (PVal.vBool enable_cuda)
        (some (propsOrEmpty properties))).1, ?_⟩
      simp [build_image, prepare_entrypoint, get_deployment_properties,
        prepare_k8s_parameters_dflt, prepare_k8s_parameters]
    · intro h
      simp at h

/-- Witness for C9 (amended) at a concrete input: `LOCAL_DOCKER`,
`skip_build = true`, one `envs` entry — the image name is returned, the
world is untouched, and the environment-file edit from `envs` is in the
trace. -/
theorem build_image_skip_build_witness :
    (∃ p, (build_image (exampleBuilder Orchestrator.LOCAL_DOCKER) false false false true
        false false false [("FOO", "bar")] none "prod" emptyWorld).1 =
        Except.ok (full_image_name (exampleBuilder Orchestrator.LOCAL_DOCKER).name
          (exampleBuilder Orchestrator.LOCAL_DOCKER).version, p)) ∧
      (build_image (exampleBuilder Orchestrator.LOCAL_DOCKER) false false false true
        false false false [("FOO", "bar")] none "prod" emptyWorld).2.1 = emptyWorld ∧
      Event.envAddE "FOO" ∈
        (build_image (exampleBuilder Orchestrator.LOCAL_DOCKER) false false false true
          false false false [("FOO", "bar")] none "prod" emptyWorld).2.2 := by
  obtain ⟨h1, h2, _, _, _, h6⟩ :=
    build_image_skip_build (exampleBuilder Orchestrator.LOCAL_DOCKER) (by decide)
      false false false false false false [("FOO", "bar")] none "prod" emptyWorld
  exact ⟨h1, h2, h6 ("FOO", "bar") (by decide)⟩
